import Mathlib

/-
Formal model of the privileged core of a bare-metal multi-core AArch64
bring-up image: the PSCI-style secure-monitor bridge (src/arch/smc.rs),
the per-core lifecycle state (src/arch/mod.rs) and the GICv3 interrupt
controller driver (src/arch/gic.rs), with the IRQ exception handler of
src/arch/exceptions.rs.

Machine integers are modelled as Nat; the source's u64/u32 masking is kept
explicit where the source performs it.  Memory-mapped and system-register
writes are modelled as an explicit effect log; reads of hardware registers
whose value the hardware changes (the redistributor WAKER handshake, the
ICC_SRE_EL1 read-modify-write) are passed in as explicit inputs.
-/

/-! ## Core lifecycle state and the secure-monitor bridge (src/arch/smc.rs) -/

/-- SMC function numbers (ARM PSCI), from src/arch/smc.rs. -/
def SMC_PSCI_VERSION : Nat := 0x84000000

def SMC_CPU_ON : Nat := 0x84000003

def SMC_CPU_OFF : Nat := 0x84000002

def SMC_SYSTEM_RESET : Nat := 0x84000009

def SMC_AFFINITY_INFO : Nat := 0x84000004

/-- Maximum number of cores on S32G3 (`NUM_CORES` in src/arch/smc.rs). -/
def NUM_CORES : Nat := 8

/-- The process-wide mutable state touched by `handle_smc`:
`CORE_STATES` (src/arch/mod.rs, an array of 8 atomic booleans, all
initially false) and `CORE_BOOT_PARAMS` (src/arch/smc.rs, 8 pairs of
entry_point and context_id, all initially zero).  Only indices below
`NUM_CORES` are ever used; accesses are guarded exactly as in the source. -/
structure SmcState where
  coreStates : Nat → Bool
  bootParams : Nat → Nat × Nat

/-- The reset state: every `CORE_STATES` slot false, every
`CORE_BOOT_PARAMS` slot `(0, 0)`. -/
def initialSmcState : SmcState :=
  { coreStates := fun _ => false, bootParams := fun _ => (0, 0) }

/-- `get_current_core_id` (src/arch/smc.rs): reads MPIDR_EL1 and masks the
low byte.  The register read is the `mpidr` argument. -/
def get_current_core_id (mpidr : Nat) : Nat :=
  mpidr &&& 0xFF

/-- `handle_smc` (src/arch/smc.rs).  The caller's MPIDR_EL1 value is an
explicit argument (the source reads it via `get_current_core_id` in the
CPU_OFF arm).  Returns `none` where the source does not return normally:
the SYSTEM_RESET arm spins forever, and the CPU_OFF arm indexes
`CORE_STATES[this_cpu]` without a bounds check, which aborts for
`this_cpu ≥ 8`.  UART logging has no effect on the modelled state and is
omitted. -/
def handle_smc (mpidr fid a0 a1 a2 : Nat) (s : SmcState) :
    Option (Nat × SmcState) :=
  if fid = SMC_PSCI_VERSION then
    some (0x00010001, s)
  else if fid = SMC_CPU_ON then
    let target_cpu := a0 &&& 0xFF
    if NUM_CORES ≤ target_cpu then
      some (0xFFFFFFFF, s)
    else if s.coreStates target_cpu then
      some (0xFFFFFFFE, s)
    else
      some (0, { s with
        bootParams := fun j => if j = target_cpu then (a1, a2) else s.bootParams j })
  else if fid = SMC_CPU_OFF then
    let this_cpu := get_current_core_id mpidr
    if this_cpu < NUM_CORES then
      some (0, { s with
        coreStates := fun j => if j = this_cpu then false else s.coreStates j })
    else
      none
  else if fid = SMC_SYSTEM_RESET then
    none
  else if fid = SMC_AFFINITY_INFO then
    let target_cpu := a0 &&& 0xFF
    if NUM_CORES ≤ target_cpu then
      some (0xFFFFFFFF, s)
    else if s.coreStates target_cpu then
      some (0, s)
    else
      some (1, s)
  else
    some (0xFFFFFFFF, s)

/-- `get_secondary_boot_params` (src/arch/smc.rs): the stored pair for an
in-range index, `(0, 0)` otherwise. -/
def get_secondary_boot_params (core_id : Nat) (s : SmcState) : Nat × Nat :=
  if core_id < NUM_CORES then s.bootParams core_id else (0, 0)

/-- One SMC invocation: the calling core's MPIDR and the five call
registers (function id and arguments x1-x3). -/
structure SmcCall where
  mpidr : Nat
  fid : Nat
  a0 : Nat
  a1 : Nat
  a2 : Nat

/-- Run a sequence of SMC invocations, threading the shared state;
`none` as soon as one invocation does not return. -/
def runSmc : List SmcCall → SmcState → Option SmcState
  | [], s => some s
  | c :: tr, s =>
    match handle_smc c.mpidr c.fid c.a0 c.a1 c.a2 s with
    | none => none
    | some (_, s1) => runSmc tr s1

/-- Run a sequence of SMC invocations and collect the returned values. -/
def runSmcResults : List SmcCall → SmcState → Option (List Nat)
  | [], _ => some []
  | c :: tr, s =>
    match handle_smc c.mpidr c.fid c.a0 c.a1 c.a2 s with
    | none => none
    | some (r, s1) => (runSmcResults tr s1).map (fun rs => r :: rs)

/-- Run a sequence of SMC invocations, returning the final state together
with the chronological log of the successful CPU_ON calls: for each call
with function id `SMC_CPU_ON` whose returned value is 0, the entry
`(target, entry_point, context_id)` with the target as the source masks
it. -/
def runSmcLog : List SmcCall → SmcState →
    Option (SmcState × List (Nat × Nat × Nat))
  | [], s => some (s, [])
  | c :: tr, s =>
    match handle_smc c.mpidr c.fid c.a0 c.a1 c.a2 s with
    | none => none
    | some (r, s1) =>
      match runSmcLog tr s1 with
      | none => none
      | some (sf, log) =>
        if c.fid = SMC_CPU_ON ∧ r = 0 then
          some (sf, (c.a0 &&& 0xFF, c.a1, c.a2) :: log)
        else
          some (sf, log)

/-- Fold step reading a successful-CPU_ON log: a later successful CPU_ON
for index `i` replaces the remembered pair. -/
def bootStep (i : Nat) (acc : Nat × Nat) (e : Nat × Nat × Nat) : Nat × Nat :=
  if e.1 = i then (e.2.1, e.2.2) else acc

/-- The pair recorded by the most recent successful CPU_ON for index `i`
in a chronological log, `(0, 0)` when there is none. -/
def lastOnParams (i : Nat) (log : List (Nat × Nat × Nat)) : Nat × Nat :=
  log.foldl (bootStep i) (0, 0)

/-- The state produced by one successful `CPU_ON` for target 2 with entry
point 0x40000000 and context id 0x1234 from the reset state. -/
def cpuOnState2 : SmcState :=
  { initialSmcState with
    bootParams := fun j =>
      if j = 2 then (0x40000000, 0x1234) else initialSmcState.bootParams j }

/-! ## GICv3 driver (src/arch/gic.rs) -/

/-- GIC Distributor base address. -/
def GICD_BASE : Nat := 0x50800000

/-- GIC Redistributor base address. -/
def GICR_BASE : Nat := 0x50900000

/-- Interrupt Set-Enable register offset in the distributor. -/
def GICD_ISENABLER : Nat := 0x0100

/-- Interrupt Clear-Enable register offset in the distributor. -/
def GICD_ICENABLER : Nat := 0x0180

/-- Interrupt Priority register offset in the distributor. -/
def GICD_IPRIORITYR : Nat := 0x0400

/-- Stride between per-core redistributor frames. -/
def GICR_STRIDE : Nat := 0x20000

/-- Redistributor Wakeup Control register offset. -/
def GICR_WAKER : Nat := 0x0014

/-- Offset of the SGI_base frame inside a redistributor frame. -/
def GICR_SGI_OFFSET : Nat := 0x10000

/-- Interrupt Group register for SGIs/PPIs. -/
def GICR_IGROUPR0 : Nat := 0x0080

/-- Interrupt Set-Enable register for SGIs/PPIs. -/
def GICR_ISENABLER0 : Nat := 0x0100

/-- Interrupt Priority registers for SGIs/PPIs. -/
def GICR_IPRIORITYR : Nat := 0x0400

/-- ProcessorSleep bit of GICR_WAKER. -/
def GICR_WAKER_PROCESSOR_SLEEP : Nat := 1 <<< 1

/-- ChildrenAsleep bit of GICR_WAKER. -/
def GICR_WAKER_CHILDREN_ASLEEP : Nat := 1 <<< 2

/-- System Register Enable bit of ICC_SRE_EL1. -/
def ICC_SRE_EL1_SRE : Nat := 1 <<< 0

/-- Group-1 enable bit of ICC_IGRPEN1_EL1. -/
def ICC_IGRPEN1_EL1_ENABLE : Nat := 1 <<< 0

/-- `MPIDR_AFFINITY_MASK` (src/arch/gic.rs): keeps Aff3 (bits 39:32) and
Aff2/Aff1/Aff0 (bits 23:0); bits 31:24 and bits above 39 are cleared. -/
def MPIDR_AFFINITY_MASK : Nat := 0xff00ffffff

/-- Mask of one affinity level. -/
def MPIDR_AFFLVL_MASK : Nat := 0xff

/-- Width of one affinity level. -/
def MPIDR_AFFINITY_BITS : Nat := 8

/-- Mask of the Aff0 (in-cluster CPU) field. -/
def MPIDR_CPU_MASK : Nat := MPIDR_AFFLVL_MASK

/-- Mask of the Aff1 (cluster) field. -/
def MPIDR_CLUSTER_MASK : Nat := MPIDR_AFFLVL_MASK <<< MPIDR_AFFINITY_BITS

/-- Shift of the Aff1 field. -/
def MPIDR_AFF1_SHIFT : Nat := MPIDR_AFFINITY_BITS

/-- Log2 of the maximum number of CPUs per cluster. -/
def S32_MPIDR_CPU_MASK_BITS : Nat := 3

/-- Number of clusters the platform declares. -/
def PLATFORM_CLUSTER_COUNT : Nat := 4

/-- Maximum CPUs per cluster the platform declares. -/
def PLATFORM_MAX_CPUS_PER_CLUSTER : Nat := 8

/-- The 64-bit value of `!(MPIDR_CLUSTER_MASK | MPIDR_CPU_MASK)` in the
source: the u64 complement of the low 16 bits. -/
def MPIDR_NON_AFF01_MASK : Nat := 0xFFFFFFFFFFFF0000

/-- `GicV3Driver::mpidr_afflvl_val`: the affinity field of `mpidr` at the
given level. -/
def mpidr_afflvl_val (mpidr level : Nat) : Nat :=
  (mpidr >>> (level * MPIDR_AFFINITY_BITS)) &&& MPIDR_AFFLVL_MASK

/-- `GicV3Driver::s32_core_pos_by_mpidr`: flat core position
`cpu_id + (cluster_id << 3)`. -/
def s32_core_pos_by_mpidr (mpidr : Nat) : Nat :=
  let cpu_id := mpidr &&& MPIDR_CPU_MASK
  let cluster_id := (mpidr &&& MPIDR_CLUSTER_MASK) >>> MPIDR_AFF1_SHIFT
  cpu_id + (cluster_id <<< S32_MPIDR_CPU_MASK_BITS)

/-- `GicV3Driver::plat_core_pos_by_mpidr`: masks the raw value to the
affinity fields, rejects values with bits set outside the Aff1/Aff0
fields that survive that mask, rejects out-of-range cluster or CPU ids,
and otherwise returns the flat core position. -/
def plat_core_pos_by_mpidr (mpidr : Nat) : Except String Nat :=
  let m := mpidr &&& MPIDR_AFFINITY_MASK
  if m &&& MPIDR_NON_AFF01_MASK ≠ 0 then
    Except.error "Invalid MPIDR value: unexpected bits set"
  else
    let cluster_id := mpidr_afflvl_val m 1
    let cpu_id := mpidr_afflvl_val m 0
    if PLATFORM_CLUSTER_COUNT ≤ cluster_id ∨
        PLATFORM_MAX_CPUS_PER_CLUSTER ≤ cpu_id then
      Except.error "Invalid MPIDR value: cluster or CPU ID out of range"
    else
      Except.ok (s32_core_pos_by_mpidr m)

/-- One hardware write performed by the GIC driver: a 32-bit or byte
memory-mapped write, or a write to one of the named GIC system
registers. -/
inductive GicEffect where
  | mmioWrite32 (addr value : Nat)
  | mmioWrite8 (addr value : Nat)
  | sreWrite (value : Nat)
  | igrpen1Write (value : Nat)
  | pmrWrite (value : Nat)
  | bpr1Write (value : Nat)
  | sgi1rWrite (value : Nat)
  | eoir1Write (id : Nat)
deriving DecidableEq

/-- True when the write lands in the distributor frame. -/
def isDistributorWrite : GicEffect → Bool
  | GicEffect.mmioWrite32 addr _ => decide (GICD_BASE ≤ addr ∧ addr < GICR_BASE)
  | GicEffect.mmioWrite8 addr _ => decide (GICD_BASE ≤ addr ∧ addr < GICR_BASE)
  | _ => false

/-- True when the write lands in a per-core redistributor frame. -/
def isRedistributorWrite : GicEffect → Bool
  | GicEffect.mmioWrite32 addr _ => decide (GICR_BASE ≤ addr)
  | GicEffect.mmioWrite8 addr _ => decide (GICR_BASE ≤ addr)
  | _ => false

/-- `GicV3Driver::acknowledge_interrupt`: reads ICC_IAR1_EL1 (the `iar`
argument) and masks the interrupt-id bits. -/
def acknowledge_interrupt (iar : Nat) : Nat :=
  iar &&& 0xFFFFFF

/-- `GicV3Driver::end_interrupt`: writes the id to ICC_EOIR1_EL1. -/
def end_interrupt (interrupt_id : Nat) : List GicEffect :=
  [GicEffect.eoir1Write interrupt_id]

/-- `GicV3Driver::set_sgi_priority`: returns silently for an SGI id above
15, otherwise performs one byte write in the redistributor's SGI frame. -/
def set_sgi_priority (gicr_base sgi_id priority : Nat) : List GicEffect :=
  if 15 < sgi_id then
    []
  else
    [GicEffect.mmioWrite8 (gicr_base + GICR_SGI_OFFSET + GICR_IPRIORITYR + sgi_id)
      priority]

/-- `GicV3Driver::send_sgi_to_core`: affinity-routed SGI to one core. -/
def send_sgi_to_core (target_core_pos sgi_id : Nat) :
    Except String (List GicEffect) :=
  if 15 < sgi_id then
    Except.error "Invalid SGI ID: must be 0-15"
  else
    let cpu_id := target_core_pos &&& ((1 <<< S32_MPIDR_CPU_MASK_BITS) - 1)
    let cluster_id := target_core_pos >>> S32_MPIDR_CPU_MASK_BITS
    if 15 < cpu_id then
      Except.error "CPU ID exceeds maximum Aff0 value (15)"
    else
      Except.ok [GicEffect.sgi1rWrite
        ((sgi_id <<< 24) ||| (cluster_id <<< 16) ||| (1 <<< cpu_id))]

/-- `GicV3Driver::send_sgi_to_all`: broadcast SGI (IRM bit set). -/
def send_sgi_to_all (sgi_id : Nat) : Except String (List GicEffect) :=
  if 15 < sgi_id then
    Except.error "Invalid SGI ID: must be 0-15"
  else
    Except.ok [GicEffect.sgi1rWrite ((1 <<< 31) ||| sgi_id)]

/-- `GicV3Driver::send_sgi_to_others`: broadcast SGI excluding the calling
core (IRM and exclude-self bits set). -/
def send_sgi_to_others (sgi_id : Nat) : Except String (List GicEffect) :=
  if 15 < sgi_id then
    Except.error "Invalid SGI ID: must be 0-15"
  else
    Except.ok [GicEffect.sgi1rWrite ((1 <<< 31) ||| (1 <<< 29) ||| sgi_id)]

/-- `GicV3Driver::enable_spi`: rejects ids outside 32..1019, otherwise one
32-bit write to the distributor's set-enable register for that id. -/
def enable_spi (interrupt_id : Nat) : Except String (List GicEffect) :=
  if interrupt_id < 32 ∨ 1020 ≤ interrupt_id then
    Except.error "Invalid SPI ID: must be 32-1019"
  else
    let reg_offset := (interrupt_id / 32) * 4
    let bit_offset := interrupt_id % 32
    Except.ok [GicEffect.mmioWrite32 (GICD_BASE + GICD_ISENABLER + reg_offset)
      (1 <<< bit_offset)]

/-- `GicV3Driver::disable_spi`: rejects ids outside 32..1019, otherwise one
32-bit write to the distributor's clear-enable register for that id. -/
def disable_spi (interrupt_id : Nat) : Except String (List GicEffect) :=
  if interrupt_id < 32 ∨ 1020 ≤ interrupt_id then
    Except.error "Invalid SPI ID: must be 32-1019"
  else
    let reg_offset := (interrupt_id / 32) * 4
    let bit_offset := interrupt_id % 32
    Except.ok [GicEffect.mmioWrite32 (GICD_BASE + GICD_ICENABLER + reg_offset)
      (1 <<< bit_offset)]

/-- `GicV3Driver::set_spi_priority`: rejects ids outside 32..1019,
otherwise one byte write to the distributor's priority register. -/
def set_spi_priority (interrupt_id priority : Nat) :
    Except String (List GicEffect) :=
  if interrupt_id < 32 ∨ 1020 ≤ interrupt_id then
    Except.error "Invalid SPI ID: must be 32-1019"
  else
    Except.ok [GicEffect.mmioWrite8 (GICD_BASE + GICD_IPRIORITYR + interrupt_id)
      priority]

/-! ## IRQ exception handler (src/arch/exceptions.rs) and per-core GIC
initialization (src/arch/gic.rs) -/

/-- `handle_interrupt` (src/arch/exceptions.rs): dispatches on the id
(UART 33, timer 27, default) and only logs; it performs no GIC write in
any arm. -/
def handle_interrupt (irq_id : Nat) : List GicEffect :=
  match irq_id with
  | 33 => []
  | 27 => []
  | _ => []

/-- `exception_handler_irq` (src/arch/exceptions.rs): acknowledges the
interrupt (the raw ICC_IAR1_EL1 read is the `iar` argument; the source
reaches the driver's acknowledge through the `gic::get_interrupt_id`
wrapper), returns at once when the id equals 1023, and otherwise
dispatches the interrupt and writes end-of-interrupt for the id. -/
def exception_handler_irq (iar : Nat) : List GicEffect :=
  let irq_id := acknowledge_interrupt iar
  if irq_id = 1023 then
    []
  else
    handle_interrupt irq_id ++ end_interrupt irq_id

/-- The busy-wait of `GicV3Driver::wake_redistributor`: successive
hardware reads of GICR_WAKER until one has the ChildrenAsleep bit clear;
false when the supplied read sequence never shows the bit clear (the
source would spin forever). -/
def spinChildrenAsleep : List Nat → Bool
  | [] => false
  | r :: rest =>
    if r &&& GICR_WAKER_CHILDREN_ASLEEP = 0 then true
    else spinChildrenAsleep rest

/-- `GicV3Driver::wake_redistributor`: reads GICR_WAKER; when the
ProcessorSleep bit is set, writes it back cleared (u32 complement of the
bit) and busy-waits until a read shows ChildrenAsleep clear.  `none` when
the source would not return: no modelled read is available, or no read
ever shows the redistributor awake. -/
def wake_redistributor (gicr_base : Nat) (wakerReads : List Nat) :
    Option (List GicEffect) :=
  match wakerReads with
  | [] => none
  | waker :: rest =>
    if waker &&& GICR_WAKER_PROCESSOR_SLEEP ≠ 0 then
      if spinChildrenAsleep rest then
        some [GicEffect.mmioWrite32 (gicr_base + GICR_WAKER)
          (waker &&& 0xFFFFFFFD)]
      else
        none
    else
      some []

/-- One pass of the priority loop of `GicV3Driver::init_sgi_ppi`:
read-modify-write of the byte lane for interrupt `i` (the read comes from
the threaded register memory; `!(0xFF << shift)` is the u32
complement). -/
def prioStep (sgi_base : Nat) (acc : (Nat → Nat) × List GicEffect) (i : Nat) :
    (Nat → Nat) × List GicEffect :=
  let offset := GICR_IPRIORITYR + (i / 4) * 4
  let shift := (i % 4) * 8
  let addr := sgi_base + offset
  let prio := acc.1 addr
  let new_prio := (prio &&& (0xFFFFFFFF ^^^ (0xFF <<< shift))) ||| (0x80 <<< shift)
  (fun a => if a = addr then new_prio else acc.1 a,
    acc.2 ++ [GicEffect.mmioWrite32 addr new_prio])

/-- `GicV3Driver::init_sgi_ppi`: group all SGIs/PPIs to Group 1, assign
priority 0x80 to interrupts 0..31 by read-modify-write, then set-enable
all of them.  The register memory is threaded so the loop's reads see the
loop's earlier writes. -/
def init_sgi_ppi (gicr_base : Nat) (mem : Nat → Nat) :
    (Nat → Nat) × List GicEffect :=
  let sgi_base := gicr_base + GICR_SGI_OFFSET
  let afterGroup : (Nat → Nat) × List GicEffect :=
    (fun a => if a = sgi_base + GICR_IGROUPR0 then 0xFFFFFFFF else mem a,
      [GicEffect.mmioWrite32 (sgi_base + GICR_IGROUPR0) 0xFFFFFFFF])
  let afterPrio := (List.range 32).foldl (prioStep sgi_base) afterGroup
  (fun a => if a = sgi_base + GICR_ISENABLER0 then 0xFFFFFFFF else afterPrio.1 a,
    afterPrio.2 ++ [GicEffect.mmioWrite32 (sgi_base + GICR_ISENABLER0) 0xFFFFFFFF])

/-- `GicV3Driver::init_secondary_core`.  Inputs: the calling core's
MPIDR_EL1 value, its current ICC_SRE_EL1 value (`sreVal`, read by
`enable_system_registers`), the process-wide `GIC_INITIALIZED` flag, the
threaded register memory and the hardware WAKER read sequence.  When the
flag is already set the source returns immediately, performing nothing;
otherwise it enables the system-register interface, wakes the calling
core's own redistributor (base derived from the caller's MPIDR, cluster
position 0 on a resolve error), initializes SGIs/PPIs, programs priority
mask 0xF0, binary point 0 and the Group-1 enable, and sets the flag.
Returns the new flag value, register memory and effect log; `none` when
the wake handshake does not terminate. -/
def init_secondary_core (mpidr sreVal : Nat) (gicInitialized : Bool)
    (mem : Nat → Nat) (wakerReads : List Nat) :
    Option (Bool × (Nat → Nat) × List GicEffect) :=
  if gicInitialized then
    some (gicInitialized, mem, [])
  else
    let sreEffects := [GicEffect.sreWrite (sreVal ||| ICC_SRE_EL1_SRE)]
    let core_pos :=
      match plat_core_pos_by_mpidr mpidr with
      | Except.ok pos => pos
      | Except.error _ => 0
    let gicr_base := GICR_BASE + core_pos * GICR_STRIDE
    match wake_redistributor gicr_base wakerReads with
    | none => none
    | some wakeEffects =>
      let ip := init_sgi_ppi gicr_base mem
      some (true, ip.1,
        sreEffects ++ wakeEffects ++ ip.2 ++
          [GicEffect.pmrWrite 0xF0, GicEffect.bpr1Write 0,
            GicEffect.igrpen1Write ICC_IGRPEN1_EL1_ENABLE])

/-! ## Decidability instance used by the concrete evaluations -/

deriving instance DecidableEq for Except

/-! ## Helper lemmas -/

/-- Per-call effect of `handle_smc` on the stored boot parameters: only a
CPU_ON invocation that returns 0 overwrites the pair of its masked
target; every other outcome (every other function id, and the
InvalidTarget and AlreadyOn rejections) leaves every slot unchanged. -/
theorem handle_smc_boot_params (mpidr fid a0 a1 a2 r : Nat) (s s' : SmcState)
    (h : handle_smc mpidr fid a0 a1 a2 s = some (r, s')) (i : Nat) :
    get_secondary_boot_params i s' =
      if fid = SMC_CPU_ON ∧ r = 0 ∧ a0 &&& 0xFF = i then (a1, a2)
      else get_secondary_boot_params i s := by
  simp only [handle_smc, NUM_CORES, get_current_core_id] at h
  by_cases h1 : fid = SMC_PSCI_VERSION
  · rw [if_pos h1, Option.some.injEq, Prod.mk.injEq] at h
    obtain ⟨hr, hs⟩ := h
    subst hs
    rw [if_neg]
    rintro ⟨hf, hr0, -⟩
    rw [← hr] at hr0
    exact absurd hr0 (by decide)
  · rw [if_neg h1] at h
    by_cases h2 : fid = SMC_CPU_ON
    · rw [if_pos h2] at h
      by_cases h3 : 8 ≤ a0 &&& 255
      · rw [if_pos h3, Option.some.injEq, Prod.mk.injEq] at h
        obtain ⟨hr, hs⟩ := h
        subst hs
        rw [if_neg]
        rintro ⟨-, hr0, -⟩
        rw [← hr] at hr0
        exact absurd hr0 (by decide)
      · rw [if_neg h3] at h
        by_cases h4 : s.coreStates (a0 &&& 255) = true
        · rw [if_pos h4, Option.some.injEq, Prod.mk.injEq] at h
          obtain ⟨hr, hs⟩ := h
          subst hs
          rw [if_neg]
          rintro ⟨-, hr0, -⟩
          rw [← hr] at hr0
          exact absurd hr0 (by decide)
        · rw [if_neg h4, Option.some.injEq, Prod.mk.injEq] at h
          obtain ⟨hr, hs⟩ := h
          subst hs
          by_cases h5 : a0 &&& 0xFF = i
          · rw [if_pos ⟨h2, hr.symm, h5⟩]
            have hi : i < NUM_CORES := by
              simp only [NUM_CORES]
              omega
            simp only [get_secondary_boot_params]
            rw [if_pos hi]
            show (if i = a0 &&& 255 then (a1, a2) else s.bootParams i) = (a1, a2)
            rw [if_pos h5.symm]
          · rw [if_neg (by rintro ⟨-, -, hc⟩; exact h5 hc)]
            simp only [get_secondary_boot_params]
            split_ifs with hi hj
            · exact absurd hj.symm h5
            · rfl
            · rfl
    · rw [if_neg h2] at h
      rw [if_neg (fun hc => h2 hc.1)]
      by_cases h3 : fid = SMC_CPU_OFF
      · rw [if_pos h3] at h
        by_cases h4 : mpidr &&& 255 < 8
        · rw [if_pos h4, Option.some.injEq, Prod.mk.injEq] at h
          obtain ⟨-, hs⟩ := h
          subst hs
          rfl
        · rw [if_neg h4] at h
          exact absurd h (by simp)
      · rw [if_neg h3] at h
        by_cases h5 : fid = SMC_SYSTEM_RESET
        · rw [if_pos h5] at h
          exact absurd h (by simp)
        · rw [if_neg h5] at h
          by_cases h6 : fid = SMC_AFFINITY_INFO
          · rw [if_pos h6] at h
            split_ifs at h <;>
              (rw [Option.some.injEq, Prod.mk.injEq] at h
               obtain ⟨-, hs⟩ := h
               subst hs
               rfl)
          · rw [if_neg h6, Option.some.injEq, Prod.mk.injEq] at h
            obtain ⟨-, hs⟩ := h
            subst hs
            rfl

/-- Run-level form of `handle_smc_boot_params`: over any call sequence the
stored pair for index `i` is the fold of the successful-CPU_ON log over
the pair stored at the start. -/
theorem runSmcLog_boot_params (tr : List SmcCall) (s0 sf : SmcState)
    (log : List (Nat × Nat × Nat))
    (h : runSmcLog tr s0 = some (sf, log)) (i : Nat) :
    get_secondary_boot_params i sf =
      log.foldl (bootStep i) (get_secondary_boot_params i s0) := by
  induction tr generalizing s0 log with
  | nil =>
    simp only [runSmcLog, Option.some.injEq, Prod.mk.injEq] at h
    obtain ⟨hs, hl⟩ := h
    subst hs
    subst hl
    rfl
  | cons c tr ih =>
    simp only [runSmcLog] at h
    cases hc : handle_smc c.mpidr c.fid c.a0 c.a1 c.a2 s0 with
    | none =>
      simp only [hc] at h
      exact absurd h (by simp)
    | some rs =>
      obtain ⟨r, s1⟩ := rs
      simp only [hc] at h
      cases hrec : runSmcLog tr s1 with
      | none =>
        simp only [hrec] at h
        exact absurd h (by simp)
      | some p =>
        obtain ⟨sf', log'⟩ := p
        simp only [hrec] at h
        by_cases hon : c.fid = SMC_CPU_ON ∧ r = 0
        · rw [if_pos hon] at h
          simp only [Option.some.injEq, Prod.mk.injEq] at h
          obtain ⟨hsf, hlog⟩ := h
          subst hsf
          subst hlog
          have hstep := handle_smc_boot_params _ _ _ _ _ _ _ _ hc i
          rw [ih s1 log' hrec]
          simp only [List.foldl_cons]
          congr 1
          rw [hstep]
          simp only [bootStep]
          by_cases ht : c.a0 &&& 0xFF = i
          · rw [if_pos ⟨hon.1, hon.2, ht⟩, if_pos ht]
          · rw [if_neg (by rintro ⟨-, -, hx⟩; exact ht hx), if_neg ht]
        · rw [if_neg hon] at h
          simp only [Option.some.injEq, Prod.mk.injEq] at h
          obtain ⟨hsf, hlog⟩ := h
          subst hsf
          subst hlog
          have hstep := handle_smc_boot_params _ _ _ _ _ _ _ _ hc i
          rw [ih s1 log' hrec, hstep, if_neg]
          rintro ⟨hf, h0, -⟩
          exact hon ⟨hf, h0⟩

/-- Per-call preservation: no arm of `handle_smc` ever stores `true` into
a `CORE_STATES` slot (CPU_ON only reads the slot; CPU_OFF stores
`false`). -/
theorem handle_smc_coreStates_false (mpidr fid a0 a1 a2 r : Nat) (s s' : SmcState)
    (h : handle_smc mpidr fid a0 a1 a2 s = some (r, s'))
    (hs : ∀ i, s.coreStates i = false) : ∀ i, s'.coreStates i = false := by
  simp only [handle_smc, NUM_CORES, get_current_core_id] at h
  split_ifs at h <;>
    first
      | exact Option.noConfusion h
      | (rw [Option.some.injEq, Prod.mk.injEq] at h
         obtain ⟨-, hss⟩ := h
         subst hss
         intro i
         first
           | exact hs i
           | (show (if i = mpidr &&& 255 then false else s.coreStates i) = false
              split_ifs <;> simp_all))

/-- In every state reachable from reset through `handle_smc` calls, every
`CORE_STATES` slot is still false: the repository contains no store of
`true`, so the AlreadyOn rejection and the On reply of AFFINITY_INFO are
unreachable from reset. -/
theorem runSmc_coreStates_false (tr : List SmcCall) (s0 sf : SmcState)
    (h : runSmc tr s0 = some sf)
    (hs : ∀ i, s0.coreStates i = false) : ∀ i, sf.coreStates i = false := by
  induction tr generalizing s0 with
  | nil =>
    simp only [runSmc, Option.some.injEq] at h
    subst h
    exact hs
  | cons c tr ih =>
    simp only [runSmc] at h
    cases hc : handle_smc c.mpidr c.fid c.a0 c.a1 c.a2 s0 with
    | none =>
      simp only [hc] at h
      exact absurd h (by simp)
    | some rs =>
      obtain ⟨r, s1⟩ := rs
      simp only [hc] at h
      exact ih s1 h (handle_smc_coreStates_false _ _ _ _ _ _ _ _ hc hs)

/-- `(m &&& MPIDR_AFFINITY_MASK) &&& MPIDR_NON_AFF01_MASK` keeps exactly
the Aff3 and Aff2 bits of the original value. -/
theorem land_affinity_mask_aff23 (m : Nat) :
    (m &&& MPIDR_AFFINITY_MASK) &&& MPIDR_NON_AFF01_MASK = m &&& 0xFF00FF0000 := by
  simp only [MPIDR_AFFINITY_MASK, MPIDR_NON_AFF01_MASK]
  rw [Nat.land_assoc,
    show ((0xff00ffffff : Nat) &&& 0xFFFFFFFFFFFF0000) = 0xFF00FF0000 from by decide]

/-- The level-1 affinity field of the masked value equals the Aff1 byte of
the original value. -/
theorem afflvl_val_one_of_masked (m : Nat) :
    mpidr_afflvl_val (m &&& MPIDR_AFFINITY_MASK) 1 = (m >>> 8) &&& 0xFF := by
  simp only [mpidr_afflvl_val, MPIDR_AFFINITY_MASK, MPIDR_AFFLVL_MASK,
    MPIDR_AFFINITY_BITS, one_mul]
  apply Nat.eq_of_testBit_eq
  intro i
  simp only [Nat.testBit_land, Nat.testBit_shiftRight]
  by_cases hi : i < 8
  · have h1 : Nat.testBit 0xff00ffffff (8 + i) = true := by
      interval_cases i <;> decide
    rw [h1, Bool.and_true]
  · have h2 : Nat.testBit 0xff i = false := by
      rw [show (0xff : Nat) = 2 ^ 8 - 1 from by decide, Nat.testBit_two_pow_sub_one]
      simp [hi]
    rw [h2, Bool.and_false, Bool.and_false]

/-- The level-0 affinity field of the masked value equals the Aff0 byte of
the original value. -/
theorem afflvl_val_zero_of_masked (m : Nat) :
    mpidr_afflvl_val (m &&& MPIDR_AFFINITY_MASK) 0 = m &&& 0xFF := by
  simp only [mpidr_afflvl_val, MPIDR_AFFINITY_MASK, MPIDR_AFFLVL_MASK,
    Nat.zero_mul, Nat.shiftRight_zero]
  rw [Nat.land_assoc, show ((0xff00ffffff : Nat) &&& 0xff) = 0xff from by decide]

/-! ## Claim theorems -/

/-- Claim C1 (code bug, evaluation at the failing input): two CPU_ON calls
for target 2 from the reset state, with no intervening CPU_OFF, both
return 0 (success); the second does not return the AlreadyOn code
0xFFFFFFFE, because no code in the repository ever stores `true` into
`CORE_STATES`, so the AlreadyOn guard of CPU_ON can never fire. -/
theorem cpu_on_twice_both_succeed :
    runSmcResults [⟨0, SMC_CPU_ON, 2, 0x40000000, 0x1234⟩,
      ⟨0, SMC_CPU_ON, 2, 0x40000000, 0x1234⟩] initialSmcState = some [0, 0]
    ∧ (0 : Nat) ≠ 0xFFFFFFFE := by
  decide

/-- Claim C2 (code bug, evaluation at the failing input): AFFINITY_INFO
for target 2 returns 1 (Off) before any CPU_ON, still returns 1 (not the
On encoding 0) right after a successful CPU_ON for target 2, and returns
1 again after target 2's own CPU_OFF: CPU_ON never marks its target on,
so AFFINITY_INFO never reports On. -/
theorem affinity_info_off_after_cpu_on :
    runSmcResults [⟨0, SMC_AFFINITY_INFO, 2, 0, 0⟩] initialSmcState = some [1]
    ∧ runSmcResults [⟨0, SMC_CPU_ON, 2, 0x40000000, 0x1234⟩,
        ⟨0, SMC_AFFINITY_INFO, 2, 0, 0⟩] initialSmcState = some [0, 1]
    ∧ runSmcResults [⟨0, SMC_CPU_ON, 2, 0x40000000, 0x1234⟩,
        ⟨2, SMC_CPU_OFF, 0, 0, 0⟩,
        ⟨0, SMC_AFFINITY_INFO, 2, 0, 0⟩] initialSmcState = some [0, 0, 1]
    ∧ (1 : Nat) ≠ 0 := by
  decide

/-- Claim C3 (counterexample): the acknowledge operation returning 1022 —
an id in the claimed spurious range id ≥ 1022 — does lead to an
end-of-interrupt write for 1022: the handler only short-circuits on the
exact value 1023. -/
theorem eoi_issued_for_id_1022 :
    acknowledge_interrupt 1022 = 1022
    ∧ 1022 ≤ acknowledge_interrupt 1022
    ∧ GicEffect.eoir1Write 1022 ∈ exception_handler_irq 1022 := by
  decide

/-- Claim C3 (amended): the IRQ handler treats exactly the id 1023 as
spurious: when the acknowledge operation returns 1023 it issues no write
and returns; for any other returned id — including 1022 — it issues an
end-of-interrupt write for that id. -/
theorem irq_handler_spurious_check (iar : Nat) :
    (acknowledge_interrupt iar = 1023 → exception_handler_irq iar = [])
    ∧ (acknowledge_interrupt iar ≠ 1023 →
        GicEffect.eoir1Write (acknowledge_interrupt iar) ∈
          exception_handler_irq iar) := by
  refine ⟨fun h => ?_, fun h => ?_⟩
  · simp [exception_handler_irq, h]
  · simp [exception_handler_irq, h, end_interrupt]

/-- Witness for `irq_handler_spurious_check` at the concrete reads 1023
and 1022. -/
theorem irq_handler_spurious_check_witness :
    exception_handler_irq 1023 = []
    ∧ GicEffect.eoir1Write 1022 ∈ exception_handler_irq 1022 :=
  ⟨(irq_handler_spurious_check 1023).1 (by decide),
   (irq_handler_spurious_check 1022).2 (by decide)⟩

/-- Claim C4 (counterexample): the raw value 0x1000000 has a set bit (the
MT bit, bit 24) outside the recognized Aff1/Aff0 fields, yet the affinity
resolver does not reject it: the bit is silently cleared by
`MPIDR_AFFINITY_MASK` and the value is accepted as core 0. -/
theorem mt_bit_accepted :
    plat_core_pos_by_mpidr 0x1000000 = Except.ok 0
    ∧ 0x1000000 &&& (MPIDR_CLUSTER_MASK ||| MPIDR_CPU_MASK) = 0
    ∧ (0x1000000 : Nat) ≠ 0 := by
  decide

/-- Claim C4 (amended): the affinity resolver accepts a raw value exactly
when its Aff3 (bits 39:32) and Aff2 (bits 23:16) fields are zero, its
Aff1 byte (the cluster) is below 4 and its Aff0 byte (the position) is
below 8; set bits in positions 31:24 or at bit 40 and above are silently
cleared by the affinity mask and never cause rejection. -/
theorem plat_core_pos_ok_iff (m : Nat) :
    (plat_core_pos_by_mpidr m).isOk = true ↔
      (m &&& 0xFF00FF0000 = 0 ∧ (m >>> 8) &&& 0xFF < 4 ∧ m &&& 0xFF < 8) := by
  simp only [plat_core_pos_by_mpidr, PLATFORM_CLUSTER_COUNT,
    PLATFORM_MAX_CPUS_PER_CLUSTER]
  rw [land_affinity_mask_aff23, afflvl_val_one_of_masked, afflvl_val_zero_of_masked]
  split_ifs with h1 h2
  · simp [Except.isOk, Except.toBool, h1]
  · rw [not_ne_iff] at h1
    simp [Except.isOk, Except.toBool, h1]
    omega
  · rw [not_ne_iff] at h1
    simp [Except.isOk, Except.toBool, h1]
    omega

/-- Witness for `plat_core_pos_ok_iff` at the concrete value 0x100. -/
theorem plat_core_pos_ok_iff_witness :
    (plat_core_pos_by_mpidr 0x100).isOk = true :=
  (plat_core_pos_ok_iff 0x100).mpr (by decide)

/-- Claim C5 (counterexample): the id 16 lies in [0, 1020), yet all three
operations reject it: `enable_spi`, `disable_spi` and `set_spi_priority`
fail for every id below 32 instead of routing it to the per-core
register. -/
theorem ppi_rejected_by_interrupt_ops :
    (16 : Nat) < 1020
    ∧ enable_spi 16 = Except.error "Invalid SPI ID: must be 32-1019"
    ∧ disable_spi 16 = Except.error "Invalid SPI ID: must be 32-1019"
    ∧ set_spi_priority 16 0x80 = Except.error "Invalid SPI ID: must be 32-1019" := by
  decide

/-- Claim C5 (amended): `enable_spi`, `disable_spi` and `set_spi_priority`
succeed exactly for ids in [32, 1020) and fail both for ids below 32 and
for ids at or above 1020; every write they emit on success targets the
shared distributor frame; the separate `set_sgi_priority` writes the
per-core redistributor frame for SGI ids up to 15. -/
theorem interrupt_ops_ok_iff (id prio : Nat) :
    ((enable_spi id).isOk = true ↔ (32 ≤ id ∧ id < 1020))
    ∧ ((disable_spi id).isOk = true ↔ (32 ≤ id ∧ id < 1020))
    ∧ ((set_spi_priority id prio).isOk = true ↔ (32 ≤ id ∧ id < 1020))
    ∧ (∀ ws, enable_spi id = Except.ok ws →
        ∀ w ∈ ws, isDistributorWrite w = true)
    ∧ (∀ ws, disable_spi id = Except.ok ws →
        ∀ w ∈ ws, isDistributorWrite w = true)
    ∧ (∀ ws, set_spi_priority id prio = Except.ok ws →
        ∀ w ∈ ws, isDistributorWrite w = true)
    ∧ (∀ gicr_base, GICR_BASE ≤ gicr_base → ∀ sgi_id, sgi_id ≤ 15 → ∀ p,
        ∀ w ∈ set_sgi_priority gicr_base sgi_id p,
          isRedistributorWrite w = true) := by
  refine ⟨?_, ?_, ?_, ?_, ?_, ?_, ?_⟩
  · simp only [enable_spi, Except.isOk, Except.toBool]
    split_ifs with h
    · simp
      omega
    · simp
      omega
  · simp only [disable_spi, Except.isOk, Except.toBool]
    split_ifs with h
    · simp
      omega
    · simp
      omega
  · simp only [set_spi_priority, Except.isOk, Except.toBool]
    split_ifs with h
    · simp
      omega
    · simp
      omega
  · intro ws hws w hw
    simp only [enable_spi] at hws
    split_ifs at hws with h
    rw [Except.ok.injEq] at hws
    subst hws
    simp only [List.mem_singleton] at hw
    subst hw
    simp only [isDistributorWrite, GICD_BASE, GICD_ISENABLER, GICR_BASE,
        decide_eq_true_eq]
    omega
  · intro ws hws w hw
    simp only [disable_spi] at hws
    split_ifs at hws with h
    rw [Except.ok.injEq] at hws
    subst hws
    simp only [List.mem_singleton] at hw
    subst hw
    simp only [isDistributorWrite, GICD_BASE, GICD_ICENABLER, GICR_BASE,
        decide_eq_true_eq]
    omega
  · intro ws hws w hw
    simp only [set_spi_priority] at hws
    split_ifs at hws with h
    rw [Except.ok.injEq] at hws
    subst hws
    simp only [List.mem_singleton] at hw
    subst hw
    simp only [isDistributorWrite, GICD_BASE, GICD_IPRIORITYR, GICR_BASE,
        decide_eq_true_eq]
    omega
  · intro gicr_base hbase sgi_id hsgi p w hw
    simp only [set_sgi_priority] at hw
    split_ifs at hw with h
    · exact absurd hw (List.not_mem_nil w)
    · simp only [List.mem_singleton] at hw
      subst hw
      simp only [isRedistributorWrite, GICR_BASE, decide_eq_true_eq]
      simp only [GICR_BASE] at hbase
      omega

/-- Witness for `interrupt_ops_ok_iff` at the concrete id 40. -/
theorem interrupt_ops_ok_iff_witness :
    (enable_spi 40).isOk = true :=
  ((interrupt_ops_ok_iff 40 0x80).1).mpr (by decide)

/-- Claim C6 (code bug, evaluation at the failing input): core 0's call to
`init_secondary_core` from the fresh state sets the single process-wide
`GIC_INITIALIZED` flag; core 1's subsequent call (MPIDR 1, flag already
true) performs no effect at all — in particular no wake handshake on core
1's own redistributor — although the same call on a fresh flag would have
written the ProcessorSleep-cleared WAKER of core 1's own redistributor
frame.  Redistributor wake and CPU-interface priming thus happen once per
system, not once per core. -/
theorem second_core_init_skipped :
    ((init_secondary_core 0 0 false (fun _ => 0) [6, 0]).map (fun r => r.1))
      = some true
    ∧ ((init_secondary_core 1 0 true (fun _ => 0) [6, 0]).map (fun r => r.2.2))
      = some []
    ∧ ((init_secondary_core 1 0 false (fun _ => 0) [6, 0]).map
        (fun r => decide (GicEffect.mmioWrite32 (GICR_BASE + GICR_STRIDE + GICR_WAKER) 4
          ∈ r.2.2))) = some true := by
  refine ⟨by decide, by rfl, by decide⟩

/-- Claim C7: for every core index below 32 (which covers every index
below the platform's 8-core bound), building the affinity value by the
pure inverse — cluster `index >>> 3` into Aff1, position `index &&& 7`
into Aff0 — and resolving it returns exactly the original index. -/
theorem affinity_round_trip : ∀ i : Fin 32,
    plat_core_pos_by_mpidr (((i.val >>> 3) <<< 8) ||| (i.val &&& 7)) =
      Except.ok i.val := by
  decide

/-- Witness for `affinity_round_trip` at the concrete index 5. -/
theorem affinity_round_trip_witness :
    plat_core_pos_by_mpidr (((5 >>> 3) <<< 8) ||| (5 &&& 7)) = Except.ok 5 :=
  affinity_round_trip 5

/-- Claim C8: over any call sequence from the reset state,
`get_secondary_boot_params i` returns exactly the
(entry_point, context_id) pair of the most recent CPU_ON targeting `i`
that returned success — rejected CPU_ON calls (AlreadyOn or
InvalidTarget) never overwrite a slot — and `(0, 0)` for an index never
targeted by a successful CPU_ON. -/
theorem boot_params_match_last_cpu_on (tr : List SmcCall) (sf : SmcState)
    (log : List (Nat × Nat × Nat))
    (h : runSmcLog tr initialSmcState = some (sf, log)) (i : Nat) :
    get_secondary_boot_params i sf = lastOnParams i log := by
  rw [runSmcLog_boot_params tr initialSmcState sf log h i, lastOnParams]
  congr 1
  simp [get_secondary_boot_params, initialSmcState]

/-- Witness for `boot_params_match_last_cpu_on` on the one-call trace
CPU_ON(2, 0x40000000, 0x1234). -/
theorem boot_params_match_last_cpu_on_witness :
    get_secondary_boot_params 2 cpuOnState2 =
      lastOnParams 2 [(2, 0x40000000, 0x1234)] :=
  boot_params_match_last_cpu_on [⟨0, SMC_CPU_ON, 2, 0x40000000, 0x1234⟩]
    cpuOnState2 [(2, 0x40000000, 0x1234)] (by rfl) 2

/-- Claim C9: every SGI-issuing operation called with an SGI id of 16 or
more returns the InvalidSgiId error — and, the error being returned
before the register write is reached, performs no write; with an SGI id
below 16 and a target within the platform's 32-core bound, all three
succeed. -/
theorem sgi_id_bounds :
    (∀ sgi_id target, 16 ≤ sgi_id →
      send_sgi_to_core target sgi_id = Except.error "Invalid SGI ID: must be 0-15"
      ∧ send_sgi_to_all sgi_id = Except.error "Invalid SGI ID: must be 0-15"
      ∧ send_sgi_to_others sgi_id = Except.error "Invalid SGI ID: must be 0-15")
    ∧ (∀ sgi_id target, sgi_id < 16 → target < 32 →
      (send_sgi_to_core target sgi_id).isOk = true
      ∧ (send_sgi_to_all sgi_id).isOk = true
      ∧ (send_sgi_to_others sgi_id).isOk = true) := by
  constructor
  · intro sgi_id target h
    have h15 : 15 < sgi_id := by omega
    refine ⟨?_, ?_, ?_⟩ <;>
      simp [send_sgi_to_core, send_sgi_to_all, send_sgi_to_others, h15]
  · intro sgi_id target h1 h2
    have h15 : ¬15 < sgi_id := by omega
    have hcpu : ¬15 < target &&& ((1 <<< S32_MPIDR_CPU_MASK_BITS) - 1) := by
      have hle : target &&& ((1 <<< S32_MPIDR_CPU_MASK_BITS) - 1) ≤
          ((1 <<< S32_MPIDR_CPU_MASK_BITS) - 1) := Nat.and_le_right
      simp only [S32_MPIDR_CPU_MASK_BITS] at hle ⊢
      omega
    refine ⟨?_, ?_, ?_⟩ <;>
      simp [send_sgi_to_core, send_sgi_to_all, send_sgi_to_others, h15, hcpu,
        Except.isOk, Except.toBool]

/-- Witness for `sgi_id_bounds` at sgi id 16 (rejected) and sgi id 2 with
target 5 (accepted). -/
theorem sgi_id_bounds_witness :
    (send_sgi_to_core 0 16 = Except.error "Invalid SGI ID: must be 0-15"
      ∧ send_sgi_to_all 16 = Except.error "Invalid SGI ID: must be 0-15"
      ∧ send_sgi_to_others 16 = Except.error "Invalid SGI ID: must be 0-15")
    ∧ ((send_sgi_to_core 5 2).isOk = true
      ∧ (send_sgi_to_all 2).isOk = true
      ∧ (send_sgi_to_others 2).isOk = true) :=
  ⟨sgi_id_bounds.1 16 0 (by decide),
   sgi_id_bounds.2 2 5 (by decide) (by decide)⟩

/-- Claim C10 (counterexample): the in-bounds affinity value 0x100
(cluster 1, position 0) is resolved to core index 8 by the affinity
resolver, while `get_current_core_id` — which CPU_OFF uses to pick the
`CORE_STATES` slot — masks only the low byte and yields 0. -/
theorem core_id_mismatch_cluster1 :
    ((0x100 >>> 8) &&& 0xFF : Nat) < 4
    ∧ (0x100 &&& 0xFF : Nat) < 8
    ∧ get_current_core_id 0x100 = 0
    ∧ plat_core_pos_by_mpidr 0x100 = Except.ok 8
    ∧ (0 : Nat) ≠ 8 := by
  decide

/-- Claim C10 (amended): for an in-bounds affinity value built from a
cluster below 4 and a position below 8, the resolver returns
position + 8·cluster and `get_current_core_id` returns the position
alone; the two agree exactly when the cluster is 0. -/
theorem core_id_agreement_iff_cluster_zero (cluster pos : Nat)
    (hc : cluster < 4) (hp : pos < 8) :
    plat_core_pos_by_mpidr ((cluster <<< 8) ||| pos) = Except.ok (pos + 8 * cluster)
    ∧ get_current_core_id ((cluster <<< 8) ||| pos) = pos
    ∧ (get_current_core_id ((cluster <<< 8) ||| pos) = pos + 8 * cluster
        ↔ cluster = 0) := by
  interval_cases cluster <;> interval_cases pos <;> decide

/-- Witness for `core_id_agreement_iff_cluster_zero` at cluster 1,
position 0. -/
theorem core_id_agreement_iff_cluster_zero_witness :
    plat_core_pos_by_mpidr ((1 <<< 8) ||| 0) = Except.ok (0 + 8 * 1)
    ∧ get_current_core_id ((1 <<< 8) ||| 0) = 0
    ∧ (get_current_core_id ((1 <<< 8) ||| 0) = 0 + 8 * 1 ↔ (1 : Nat) = 0) :=
  core_id_agreement_iff_cluster_zero 1 0 (by decide) (by decide)
